import Mathlib

/-!
Verification of the name-resolution pass (`src/ast_pass/name_resolve.rs`).

The resolver itself (`AstNameResolver` and its methods) is embedded directly
from the Rust source.  The `ScopedSymbolStack` / `ModSymTable` data structures
it drives live in `crate::ast::symbol`, which is not part of the provided
sources; they are modelled from the specification (§3, §4.1).  Spans are
modelled as the name text (the spec compares occurrences by content), node
identities and symbol ids as naturals.  A Rust `unimplemented!` panic is
modelled as `Option.none` propagating out of the walk.
-/

namespace Nosh

/-- A symbol kind: function (covers extern functions, which are also inserted
via `insert_func`) or local (parameters and declared variables). -/
inductive SymKind : Type where
  | func : SymKind
  | loc : SymKind
deriving DecidableEq, Repr

/-- Modelled from the spec: the error record produced by a scoped insert.
§3: "Error record: one of {Redefinition(conflicting declaration occurrence)}";
the prior occurrence is implicit (same name text), so the record carries the
new occurrence's span. -/
inductive ScopedInsertErr : Type where
  | redefinition (span : String) : ScopedInsertErr
deriving DecidableEq, Repr

/-- Modelled from the spec (§4.1): the scoped symbol stack.  `scopes` is the
stack of lexical scopes (innermost first), each a mapping from name text to
symbol id; `table` is the table-under-construction mapping node identity to
symbol id; `symbols` records per-symbol metadata (symbol id, kind, declaring
node identity); `nextSid` is the fresh symbol id allocator. -/
structure ScopedSymbolStack : Type where
  scopes : List (List (String × Nat))
  table : List (Nat × Nat)
  symbols : List (Nat × SymKind × Nat)
  nextSid : Nat
deriving DecidableEq, Repr

def ScopedSymbolStack.empty : ScopedSymbolStack := ⟨[], [], [], 0⟩

/-- Modelled from the spec: `push_scope()` pushes an empty scope frame. -/
def ScopedSymbolStack.push_scope (s : ScopedSymbolStack) : ScopedSymbolStack :=
  { s with scopes := [] :: s.scopes }

/-- Modelled from the spec: `pop_scope()` pops the top frame, discarding its
name mapping.  (Calling it on an empty stack is a fatal programmer error per
§4.1; the resolver keeps pushes and pops balanced so that case is never
reached, and we model it as leaving the empty stack unchanged.) -/
def ScopedSymbolStack.pop_scope (s : ScopedSymbolStack) : ScopedSymbolStack :=
  { s with scopes := s.scopes.tail }

/-- Modelled from the spec: the shared core of `insert_func` / `insert_local`.
If the top scope already binds this exact name text the state is unchanged and
a `Redefinition` error is yielded (no symbol id allocated); otherwise a fresh
symbol id is allocated, `nid ↦ sid` is recorded in the table, the symbol
metadata is recorded, and `name ↦ sid` enters the top scope's mapping.
Conflicts are checked against the top scope only. -/
def ScopedSymbolStack.insert_sym (s : ScopedSymbolStack) (kind : SymKind)
    (nid : Nat) (span : String) : Except ScopedInsertErr ScopedSymbolStack :=
  match s.scopes with
  | [] => .ok s
  | top :: rest =>
    if (top.lookup span).isSome then
      .error (.redefinition span)
    else
      .ok { scopes := ((span, s.nextSid) :: top) :: rest
            table := s.table ++ [(nid, s.nextSid)]
            symbols := s.symbols ++ [(s.nextSid, kind, nid)]
            nextSid := s.nextSid + 1 }

/-- Modelled from the spec: declare a function symbol in the current scope. -/
def ScopedSymbolStack.insert_func (s : ScopedSymbolStack) (nid : Nat)
    (span : String) : Except ScopedInsertErr ScopedSymbolStack :=
  s.insert_sym .func nid span

/-- Modelled from the spec: declare a local symbol in the current scope. -/
def ScopedSymbolStack.insert_local (s : ScopedSymbolStack) (nid : Nat)
    (span : String) : Except ScopedInsertErr ScopedSymbolStack :=
  s.insert_sym .loc nid span

/-- Modelled from the spec: bind a reference node identity to an existing
symbol id; always succeeds, touches no scope's name mapping. -/
def ScopedSymbolStack.insert_local_reuse (s : ScopedSymbolStack) (nid : Nat)
    (sid : Nat) : ScopedSymbolStack :=
  { s with table := s.table ++ [(nid, sid)] }

/-- Modelled from the spec: search the scope frames innermost-first for the
name text, returning the first symbol id found. -/
def lookup_scopes : List (List (String × Nat)) → String → Option Nat
  | [], _ => none
  | top :: rest, span =>
    match top.lookup span with
    | some sid => some sid
    | none => lookup_scopes rest span

/-- Modelled from the spec: `lookup(span)`, innermost scope first. -/
def ScopedSymbolStack.lookup (s : ScopedSymbolStack) (span : String) : Option Nat :=
  lookup_scopes s.scopes span

/-- Modelled from the spec: the finalized symbol table — the node-identity to
symbol-id mapping plus per-symbol metadata. -/
structure ModSymTable : Type where
  table : List (Nat × Nat)
  symbols : List (Nat × SymKind × Nat)
deriving DecidableEq, Repr

/-- Modelled from the spec: `finish_resolve()` consumes the stack and returns
the finalized symbol table. -/
def ScopedSymbolStack.finish_resolve (s : ScopedSymbolStack) : ModSymTable :=
  ⟨s.table, s.symbols⟩

/- ## The AST, as consumed by `name_resolve.rs` -/

mutual
/-- An expression: a node identity and an expression kind
(Rust `Expr { nid, kind }`). -/
inductive Expr : Type where
  | mk (nid : Nat) (kind : ExprKind) : Expr

/-- Expression kinds (Rust `ExprKind`).  Spans are the name text. -/
inductive ExprKind : Type where
  | block (subs : List Expr) : ExprKind
  | decl (bound : String) (value : Expr) : ExprKind
  | letE (bound : List Expr) (letBody : Expr) : ExprKind
  | var (span : String) : ExprKind
  | call (callee : Expr) (args : List Expr) : ExprKind
  | binary (lhs : Expr) (rhs : Expr) : ExprKind
  | ite (cond : Expr) (ifBody : Expr) (elseBody : Expr) : ExprKind
  | whileE (cond : Expr) (whileBody : Expr) : ExprKind
  | lit : ExprKind
end

/-- A function argument: node identity and name (Rust `arg.nid`, `arg.name.span`). -/
structure Arg : Type where
  nid : Nat
  name : String

/-- A function prototype: name and argument list. -/
structure Proto : Type where
  name : String
  args : List Arg

/-- A function definition: prototype and body. -/
structure Function : Type where
  proto : Proto
  body : Expr

/-- Top-level item kinds: function definition or extern declaration. -/
inductive ItemKind : Type where
  | func (f : Function) : ItemKind
  | ext (proto : Proto) : ItemKind

/-- A top-level item: node identity and kind. -/
structure Item : Type where
  nid : Nat
  kind : ItemKind

/-- A module: an ordered list of top-level items. -/
structure Module : Type where
  body : List Item

/- ## The resolver (`AstNameResolver`), embedded from the source -/

/-- The resolver state: the scoped symbol stack and the collected error list
(Rust `AstNameResolver { scopes, errs }`). -/
structure AstNameResolver : Type where
  scopes : ScopedSymbolStack
  errs : List ScopedInsertErr
deriving DecidableEq, Repr

/-- The initial resolver state (Rust `Default for AstNameResolver`). -/
def AstNameResolver.init : AstNameResolver := ⟨.empty, []⟩

/-- The Rust pattern `if let Err(e) = insert { self.errs.push(e) }`: on success
the stack is replaced, on error the error is appended to the collected list. -/
def record (st : AstNameResolver)
    (r : Except ScopedInsertErr ScopedSymbolStack) : AstNameResolver :=
  match r with
  | .ok sc => { st with scopes := sc }
  | .error e => { st with errs := st.errs ++ [e] }

/-- Phase 1 (`resolve_top_level_names`): register every top-level item's name
in the current (root) scope via `insert_func`, collecting conflicts. -/
def resolve_top_level_names (st : AstNameResolver) (items : List Item) :
    AstNameResolver :=
  items.foldl (fun st item =>
    match item.kind with
    | .func f => record st (st.scopes.insert_func item.nid f.proto.name)
    | .ext proto => record st (st.scopes.insert_func item.nid proto.name)) st

mutual
/-- `resolve_expr`: the recursive expression walk.  `none` models the Rust
`unimplemented!` panic taken when a variable reference is not found in any
scope. -/
def resolve_expr (st : AstNameResolver) (e : Expr) : Option AstNameResolver :=
  match e with
  | .mk nid k =>
    match k with
    | .block subs =>
      (resolve_exprs { st with scopes := st.scopes.push_scope } subs).map
        fun st => { st with scopes := st.scopes.pop_scope }
    | .decl bound value =>
      (resolve_expr st value).map
        fun st => record st (st.scopes.insert_local nid bound)
    | .letE bound letBody =>
      ((resolve_exprs { st with scopes := st.scopes.push_scope } bound).bind
        fun st => resolve_expr st letBody).map
          fun st => { st with scopes := st.scopes.pop_scope }
    | .var span =>
      match st.scopes.lookup span with
      | some sid => some { st with scopes := st.scopes.insert_local_reuse nid sid }
      | none => none
    | .call callee args =>
      (resolve_exprs st args).bind fun st => resolve_expr st callee
    | .binary lhs rhs =>
      (resolve_expr st lhs).bind fun st => resolve_expr st rhs
    | .ite cond ifBody elseBody =>
      ((resolve_expr st cond).bind fun st => resolve_expr st ifBody).bind
        fun st => resolve_expr st elseBody
    | .whileE cond whileBody =>
      (resolve_expr st cond).bind fun st => resolve_expr st whileBody
    | .lit => some st

/-- The `for sub in b { self.resolve_expr(sub) }` loops of the source: resolve
a list of expressions left to right. -/
def resolve_exprs (st : AstNameResolver) (es : List Expr) : Option AstNameResolver :=
  match es with
  | [] => some st
  | e :: rest => (resolve_expr st e).bind fun st => resolve_exprs st rest
end

/-- `resolve_func_contents`: push the argument scope, declare each parameter
as a local, resolve the body, pop the scope. -/
def resolve_func_contents (st : AstNameResolver) (f : Function) :
    Option AstNameResolver :=
  let st := { st with scopes := st.scopes.push_scope }
  let st := f.proto.args.foldl
    (fun st arg => record st (st.scopes.insert_local arg.nid arg.name)) st
  (resolve_expr st f.body).map fun st => { st with scopes := st.scopes.pop_scope }

/-- Phase 2 (`resolve_top_level_contents`): resolve the body of every function
item; externs have no body. -/
def resolve_top_level_contents (st : AstNameResolver) (items : List Item) :
    Option AstNameResolver :=
  match items with
  | [] => some st
  | item :: rest =>
    match item.kind with
    | .func f =>
      (resolve_func_contents st f).bind fun st => resolve_top_level_contents st rest
    | .ext _ => resolve_top_level_contents st rest

/-- The whole walk of `run_pass` before the error check: push the root scope,
phase 1, phase 2, pop the root scope. -/
def walk_module (m : Module) : Option AstNameResolver :=
  let st := AstNameResolver.init
  let st := { st with scopes := st.scopes.push_scope }
  let st := resolve_top_level_names st m.body
  (resolve_top_level_contents st m.body).map
    fun st => { st with scopes := st.scopes.pop_scope }

/-- Rust `type NameResolutionResult = Result<ModSymTable, Vec<ScopedInsertErr>>`
(a type alias in the source, hence an abbreviation here). -/
abbrev NameResolutionResult : Type := Except (List ScopedInsertErr) ModSymTable

/-- `run_pass`: run the walk; if any errors were accumulated return them all,
otherwise finalize and return the symbol table.  `none` models a panic during
the walk. -/
def run_pass (m : Module) : Option NameResolutionResult :=
  (walk_module m).map fun st =>
    if !st.errs.isEmpty then .error st.errs else .ok st.scopes.finish_resolve

end Nosh

namespace Nosh

/- ## Fixture modules used by the theorems -/

/-- A module with a single function `f` whose body is a literal. -/
def one_func_mod : Module := ⟨[⟨0, .func ⟨⟨"f", []⟩, .mk 1 .lit⟩⟩]⟩

/-- A module whose single function body is a reference to the name `y`,
which is bound in no scope. -/
def unbound_var_mod : Module :=
  ⟨[⟨0, .func ⟨⟨"f", []⟩, .mk 1 (.var "y")⟩⟩]⟩

/-- Two functions: `na` (item nid 0) whose body calls `nb` (the callee
reference is node 2), and `nb` (item nid 3); `na` listed first. -/
def two_funcs_ab (na nb : String) : Module :=
  ⟨[⟨0, .func ⟨⟨na, []⟩, .mk 1 (.call (.mk 2 (.var nb)) [])⟩⟩,
    ⟨3, .func ⟨⟨nb, []⟩, .mk 4 .lit⟩⟩]⟩

/-- The same two functions as `two_funcs_ab`, with `nb` listed first. -/
def two_funcs_ba (na nb : String) : Module :=
  ⟨[⟨3, .func ⟨⟨nb, []⟩, .mk 4 .lit⟩⟩,
    ⟨0, .func ⟨⟨na, []⟩, .mk 1 (.call (.mk 2 (.var nb)) [])⟩⟩]⟩

/-- A block (node 1) declaring `x` (node 2), with a nested block (node 4)
declaring `x` again (node 5) and then referencing `x` (node 7). -/
def shadow_mod (x : String) : Module :=
  ⟨[⟨0, .func ⟨⟨"f", []⟩,
      .mk 1 (.block [.mk 2 (.decl x (.mk 3 .lit)),
                     .mk 4 (.block [.mk 5 (.decl x (.mk 6 .lit)),
                                    .mk 7 (.var x)])])⟩⟩]⟩

/-- An outer block declaring `x` (node 2), and a nested block whose
declaration `x = x` (node 5) references `x` (node 6) in its initializer. -/
def decl_sees_outer_mod : Module :=
  ⟨[⟨0, .func ⟨⟨"f", []⟩,
      .mk 1 (.block [.mk 2 (.decl "x" (.mk 3 .lit)),
                     .mk 4 (.block [.mk 5 (.decl "x" (.mk 6 (.var "x")))])])⟩⟩]⟩

/-- A function whose body is `x = x` (node 1) with no outer binding of `x`:
the right-hand reference is node 2. -/
def self_ref_mod : Module :=
  ⟨[⟨0, .func ⟨⟨"f", []⟩, .mk 1 (.decl "x" (.mk 2 (.var "x")))⟩⟩]⟩

/-- Three independent same-scope conflicts: duplicate parameter `a`,
duplicate local `y` in one block, and a duplicate top-level name `f`. -/
def multi_conflict_mod : Module :=
  ⟨[⟨0, .func ⟨⟨"f", [⟨1, "a"⟩, ⟨2, "a"⟩]⟩,
      .mk 3 (.block [.mk 4 (.decl "y" (.mk 5 .lit)),
                     .mk 6 (.decl "y" (.mk 7 .lit))])⟩⟩,
    ⟨8, .func ⟨⟨"f", []⟩, .mk 9 .lit⟩⟩]⟩

/-- A let group whose second binding `b` (node 4) references the earlier
binding `a` (declared at node 2; the reference is node 5), and whose body
references `b` (node 6). -/
def let_backward_mod : Module :=
  ⟨[⟨0, .func ⟨⟨"f", []⟩,
      .mk 1 (.letE [.mk 2 (.decl "a" (.mk 3 .lit)),
                    .mk 4 (.decl "b" (.mk 5 (.var "a")))]
                   (.mk 6 (.var "b")))⟩⟩]⟩

/-- A let group whose first binding references the later binding `b`
(forward reference within the group). -/
def let_forward_mod : Module :=
  ⟨[⟨0, .func ⟨⟨"f", []⟩,
      .mk 1 (.letE [.mk 2 (.decl "a" (.mk 3 (.var "b"))),
                    .mk 4 (.decl "b" (.mk 5 .lit))]
                   (.mk 6 .lit))⟩⟩]⟩

/-- A call `f(a, b)` inside `f(a, b)`'s own body: the argument references
are nodes 5 and 6 (in listed order) and the callee reference is node 4. -/
def call_mod : Module :=
  ⟨[⟨0, .func ⟨⟨"f", [⟨1, "a"⟩, ⟨2, "b"⟩]⟩,
      .mk 3 (.call (.mk 4 (.var "f")) [.mk 5 (.var "a"), .mk 6 (.var "b")])⟩⟩]⟩

/-- Two functions both named `f`; the second (conflicting in phase 1) has a
duplicate parameter `a` and its body references `a` (node 5). -/
def dup_func_mod : Module :=
  ⟨[⟨0, .func ⟨⟨"f", []⟩, .mk 1 .lit⟩⟩,
    ⟨2, .func ⟨⟨"f", [⟨3, "a"⟩, ⟨4, "a"⟩]⟩, .mk 5 (.var "a")⟩⟩]⟩

/-- The same module as `dup_func_mod` except the second function is named
`g`, so no top-level conflict occurs. -/
def dup_param_mod : Module :=
  ⟨[⟨0, .func ⟨⟨"f", []⟩, .mk 1 .lit⟩⟩,
    ⟨2, .func ⟨⟨"g", [⟨3, "a"⟩, ⟨4, "a"⟩]⟩, .mk 5 (.var "a")⟩⟩]⟩

/-- A block containing an if whose branches are bare declarations of `x`
(node 4) and `y` (node 6), a while whose body is a bare declaration of `z`
(node 10), and then references to `x`, `y`, `z` (nodes 12, 13, 14). -/
def branch_decl_mod : Module :=
  ⟨[⟨0, .func ⟨⟨"f", []⟩,
      .mk 1 (.block [.mk 2 (.ite (.mk 3 .lit)
                                 (.mk 4 (.decl "x" (.mk 5 .lit)))
                                 (.mk 6 (.decl "y" (.mk 7 .lit)))),
                     .mk 8 (.whileE (.mk 9 .lit)
                                    (.mk 10 (.decl "z" (.mk 11 .lit)))),
                     .mk 12 (.var "x"),
                     .mk 13 (.var "y"),
                     .mk 14 (.var "z")])⟩⟩]⟩

/-- A completed sub-walk leaves the scope-stack depth unchanged and only
appends to the collected error list. -/
def BalOk (st st' : AstNameResolver) : Prop :=
  st'.scopes.scopes.length = st.scopes.scopes.length ∧
    ∃ l, st'.errs = st.errs ++ l

end Nosh

namespace Nosh

/- ## Helper lemmas: scope balance and error monotonicity -/

lemma BalOk.refl {st : AstNameResolver} : BalOk st st :=
  ⟨Eq.refl _, [], (List.append_nil _).symm⟩

lemma BalOk.trans {s t u : AstNameResolver} (h₁ : BalOk s t) (h₂ : BalOk t u) :
    BalOk s u := by
  obtain ⟨hl₁, l₁, he₁⟩ := h₁
  obtain ⟨hl₂, l₂, he₂⟩ := h₂
  exact ⟨hl₁ ▸ hl₂, l₁ ++ l₂, by rw [he₂, he₁, List.append_assoc]⟩

lemma insert_sym_ok_scopes_len {k : SymKind} {nid : Nat} {span : String} :
    ∀ {s sc : ScopedSymbolStack}, s.insert_sym k nid span = .ok sc →
      sc.scopes.length = s.scopes.length := by
  rintro ⟨scopes, table, symbols, nextSid⟩ sc h
  cases scopes with
  | nil =>
    simp only [ScopedSymbolStack.insert_sym, Except.ok.injEq] at h
    rw [← h]
  | cons top rest =>
    simp only [ScopedSymbolStack.insert_sym] at h
    by_cases hc : (top.lookup span).isSome
    · simp [hc] at h
    · rw [if_neg (by simp [hc])] at h
      injection h with h
      rw [← h]
      simp

lemma record_insert_bal (st : AstNameResolver) (k : SymKind) (nid : Nat)
    (span : String) : BalOk st (record st (st.scopes.insert_sym k nid span)) := by
  unfold record
  rcases h : st.scopes.insert_sym k nid span with e | sc
  · exact ⟨Eq.refl _, [e], Eq.refl _⟩
  · exact ⟨insert_sym_ok_scopes_len h, [], (List.append_nil _).symm⟩

lemma resolve_expr_bal (st : AstNameResolver) (e : Expr) :
    ∀ st', resolve_expr st e = some st' → BalOk st st' := by
  refine resolve_expr.induct
    (fun st e => ∀ st', resolve_expr st e = some st' → BalOk st st')
    (fun st es => ∀ st', resolve_exprs st es = some st' → BalOk st st')
    ?_ ?_ ?_ ?_ ?_ ?_ ?_ ?_ ?_ ?_ ?_ ?_ st e
  · -- block
    intro st nid subs ih st' h
    rw [resolve_expr, Option.map_eq_some'] at h
    obtain ⟨a, ha, hst'⟩ := h
    obtain ⟨hl, l, he⟩ := ih a ha
    refine ⟨?_, l, ?_⟩
    · rw [← hst']
      simp only [ScopedSymbolStack.pop_scope, List.length_tail]
      simp only [ScopedSymbolStack.push_scope, List.length_cons] at hl
      omega
    · rw [← hst']
      exact he
  · -- decl
    intro st nid bound value ih st' h
    rw [resolve_expr, Option.map_eq_some'] at h
    obtain ⟨a, ha, hst'⟩ := h
    exact (ih a ha).trans (hst' ▸ record_insert_bal a .loc nid bound)
  · -- letE
    intro st nid bound letBody ih₁ ih₂ st' h
    rw [resolve_expr, Option.map_eq_some'] at h
    obtain ⟨b, hb, hst'⟩ := h
    rw [Option.bind_eq_some] at hb
    obtain ⟨a, ha, hab⟩ := hb
    obtain ⟨hl, l, he⟩ := (ih₁ a ha).trans (ih₂ a b hab)
    refine ⟨?_, l, ?_⟩
    · rw [← hst']
      simp only [ScopedSymbolStack.pop_scope, List.length_tail]
      simp only [ScopedSymbolStack.push_scope, List.length_cons] at hl
      omega
    · rw [← hst']
      exact he
  · -- var, found
    intro st nid span sid hfound st' h
    rw [resolve_expr] at h
    rw [hfound] at h
    simp only [Option.some.injEq] at h
    rw [← h]
    exact ⟨Eq.refl _, [], (List.append_nil _).symm⟩
  · -- var, not found
    intro st nid span hnone st' h
    rw [resolve_expr] at h
    rw [hnone] at h
    exact absurd h (by simp)
  · -- call
    intro st nid callee args ih₁ ih₂ st' h
    rw [resolve_expr, Option.bind_eq_some] at h
    obtain ⟨a, ha, hac⟩ := h
    exact (ih₁ a ha).trans (ih₂ a st' hac)
  · -- binary
    intro st nid lhs rhs ih₁ ih₂ st' h
    rw [resolve_expr, Option.bind_eq_some] at h
    obtain ⟨a, ha, hab⟩ := h
    exact (ih₁ a ha).trans (ih₂ a st' hab)
  · -- ite
    intro st nid cond ifBody elseBody ih₁ ih₂ ih₃ st' h
    rw [resolve_expr, Option.bind_eq_some] at h
    obtain ⟨b, hb, hbe⟩ := h
    rw [Option.bind_eq_some] at hb
    obtain ⟨a, ha, hab⟩ := hb
    exact ((ih₁ a ha).trans (ih₂ a b hab)).trans (ih₃ b st' hbe)
  · -- whileE
    intro st nid cond whileBody ih₁ ih₂ st' h
    rw [resolve_expr, Option.bind_eq_some] at h
    obtain ⟨a, ha, hab⟩ := h
    exact (ih₁ a ha).trans (ih₂ a st' hab)
  · -- lit
    intro st nid st' h
    rw [resolve_expr] at h
    simp only [Option.some.injEq] at h
    rw [← h]
    exact BalOk.refl
  · -- nil
    intro st st' h
    rw [resolve_exprs] at h
    simp only [Option.some.injEq] at h
    rw [← h]
    exact BalOk.refl
  · -- cons
    intro st e rest ih₁ ih₂ st' h
    rw [resolve_exprs, Option.bind_eq_some] at h
    obtain ⟨a, ha, har⟩ := h
    exact (ih₁ a ha).trans (ih₂ a st' har)

lemma resolve_top_level_names_bal (items : List Item) :
    ∀ st, BalOk st (resolve_top_level_names st items) := by
  induction items with
  | nil => intro st; exact BalOk.refl
  | cons item rest ih =>
    intro st
    rw [resolve_top_level_names] at *
    simp only [List.foldl_cons]
    refine BalOk.trans ?_ (ih _)
    rcases item with ⟨nid, k | p⟩
    · exact record_insert_bal st .func nid _
    · exact record_insert_bal st .func nid _

lemma args_foldl_bal (args : List Arg) :
    ∀ st : AstNameResolver,
      BalOk st (args.foldl
        (fun st arg => record st (st.scopes.insert_local arg.nid arg.name)) st) := by
  induction args with
  | nil => intro st; exact BalOk.refl
  | cons arg rest ih =>
    intro st
    simp only [List.foldl_cons]
    exact BalOk.trans (record_insert_bal st .loc arg.nid arg.name) (ih _)

lemma resolve_func_contents_bal (st : AstNameResolver) (f : Function) :
    ∀ st', resolve_func_contents st f = some st' → BalOk st st' := by
  intro st' h
  rw [resolve_func_contents] at h
  rw [Option.map_eq_some'] at h
  obtain ⟨a, ha, hst'⟩ := h
  obtain ⟨hl, l, he⟩ :=
    BalOk.trans (args_foldl_bal f.proto.args { st with scopes := st.scopes.push_scope })
      (resolve_expr_bal _ f.body a ha)
  refine ⟨?_, l, ?_⟩
  · rw [← hst']
    simp only [ScopedSymbolStack.pop_scope, List.length_tail]
    simp only [ScopedSymbolStack.push_scope, List.length_cons] at hl
    omega
  · rw [← hst']
    exact he

lemma resolve_top_level_contents_bal (items : List Item) :
    ∀ st st', resolve_top_level_contents st items = some st' → BalOk st st' := by
  induction items with
  | nil =>
    intro st st' h
    rw [resolve_top_level_contents] at h
    simp only [Option.some.injEq] at h
    rw [← h]
    exact BalOk.refl
  | cons item rest ih =>
    intro st st' h
    rw [resolve_top_level_contents] at h
    rcases item with ⟨nid, f | p⟩
    · rw [Option.bind_eq_some] at h
      obtain ⟨a, ha, har⟩ := h
      exact (resolve_func_contents_bal st f a ha).trans (ih a st' har)
    · exact ih st st' h

/-- The walk always ends with every scope popped: the root scope is pushed,
the two phases preserve the depth, and the root scope is popped. -/
lemma walk_module_scopes_nil (m : Module) :
    ∀ st', walk_module m = some st' → st'.scopes.scopes = [] := by
  intro st' h
  rw [walk_module] at h
  rw [Option.map_eq_some'] at h
  obtain ⟨a, ha, hst'⟩ := h
  obtain ⟨hl₂, _, _⟩ := resolve_top_level_contents_bal m.body _ a ha
  obtain ⟨hl₁, _, _⟩ := resolve_top_level_names_bal m.body
    { AstNameResolver.init with scopes := AstNameResolver.init.scopes.push_scope }
  rw [← hst']
  simp only [ScopedSymbolStack.pop_scope]
  rw [← List.length_eq_zero, List.length_tail]
  simp only [ScopedSymbolStack.push_scope, List.length_cons, AstNameResolver.init,
    ScopedSymbolStack.empty, List.length_nil] at hl₁ hl₂ ⊢
  omega

end Nosh

namespace Nosh

/- ## Claim theorems -/

/-- Claim C1: the claim requires that a variable reference whose name is
bound in no scope yields a reportable unresolved-name error record on the
collected error list, never a process abort.  The source instead takes the
`unimplemented!` abort path (`ExprKind::Var`, `None` arm), modelled as the
walk producing `none`: on a module whose function body references the
unbound name `y`, the pass aborts instead of returning an error list. -/
theorem unresolved_var_aborts_walk : run_pass unbound_var_mod = none := rfl

/-- Claim C2: the pass's result is binary — once the walk completes, a
nonempty accumulated error list is returned whole with no symbol table, and
an empty one yields the finalized symbol table. -/
theorem run_pass_result_is_binary (m : Module) (st : AstNameResolver)
    (h : walk_module m = some st) :
    (st.errs ≠ [] → run_pass m = some (.error st.errs)) ∧
    (st.errs = [] → run_pass m = some (.ok st.scopes.finish_resolve)) := by
  constructor <;> intro he <;>
    rw [run_pass, h, Option.map_some'] <;>
    simp [List.isEmpty_iff, he]

/-- Witness for C2 at a concrete one-function module whose walk succeeds
with no errors. -/
theorem run_pass_result_is_binary_witness :
    run_pass one_func_mod = some (.ok ⟨[(0, 0)], [(0, .func, 0)]⟩) :=
  (run_pass_result_is_binary one_func_mod ⟨⟨[], [(0, 0)], [(0, .func, 0)], 1⟩, []⟩ rfl).2 rfl

/-- Claim C3: for two functions where `na`'s body calls `nb`, resolution
succeeds in both textual orders, and the two orders produce identical
resolution results in the sense of the reference-to-declaration binding
(symbol ids are opaque per the spec): in both orders the callee reference
(node 2) is bound to the symbol id of `nb`'s declaration (node 3). -/
theorem top_level_order_independent (na nb : String) (h : na ≠ nb) :
    ∃ t₁ t₂,
      run_pass (two_funcs_ab na nb) = some (.ok t₁) ∧
      run_pass (two_funcs_ba na nb) = some (.ok t₂) ∧
      t₁.table.lookup 2 = t₁.table.lookup 3 ∧ (t₁.table.lookup 2).isSome ∧
      t₂.table.lookup 2 = t₂.table.lookup 3 ∧ (t₂.table.lookup 2).isSome := by
  have hba : (nb == na) = false := beq_eq_false_iff_ne.mpr (Ne.symm h)
  have hab : (na == nb) = false := beq_eq_false_iff_ne.mpr h
  refine ⟨⟨[(0, 0), (3, 1), (2, 1)], [(0, .func, 0), (1, .func, 3)]⟩,
          ⟨[(3, 0), (0, 1), (2, 0)], [(0, .func, 3), (1, .func, 0)]⟩,
          ?_, ?_, rfl, rfl, rfl, rfl⟩ <;>
    simp [run_pass, walk_module, two_funcs_ab, two_funcs_ba, resolve_top_level_names,
      resolve_top_level_contents, resolve_func_contents, resolve_expr, resolve_exprs,
      AstNameResolver.init, ScopedSymbolStack.empty, ScopedSymbolStack.push_scope,
      ScopedSymbolStack.pop_scope, ScopedSymbolStack.insert_func,
      ScopedSymbolStack.insert_local, ScopedSymbolStack.insert_sym,
      ScopedSymbolStack.lookup, lookup_scopes, ScopedSymbolStack.insert_local_reuse,
      ScopedSymbolStack.finish_resolve, record, List.lookup, hba, hab]

/-- Witness for C3 at the concrete names `a` and `b`. -/
theorem top_level_order_independent_witness :
    ("a" : String) ≠ "b" ∧
    ∃ t₁ t₂,
      run_pass (two_funcs_ab "a" "b") = some (.ok t₁) ∧
      run_pass (two_funcs_ba "a" "b") = some (.ok t₂) ∧
      t₁.table.lookup 2 = t₁.table.lookup 3 ∧ (t₁.table.lookup 2).isSome ∧
      t₂.table.lookup 2 = t₂.table.lookup 3 ∧ (t₂.table.lookup 2).isSome :=
  ⟨by decide, top_level_order_independent "a" "b" (by decide)⟩

/-- Claim C4: a block nested in another block may redeclare the outer
block's local `x` without any Redefinition error, and the reference to `x`
inside the inner block (node 7) is bound to the inner declaration's symbol
id (that of node 5), never the outer declaration's (that of node 2). -/
theorem inner_block_shadowing (x : String) :
    ∃ t sInner sOuter,
      run_pass (shadow_mod x) = some (.ok t) ∧
      t.table.lookup 2 = some sOuter ∧
      t.table.lookup 5 = some sInner ∧
      t.table.lookup 7 = some sInner ∧
      sInner ≠ sOuter := by
  refine ⟨⟨[(0, 0), (2, 1), (5, 2), (7, 2)], [(0, .func, 0), (1, .loc, 2), (2, .loc, 5)]⟩,
          2, 1, ?_, rfl, rfl, rfl, by decide⟩
  simp [run_pass, walk_module, shadow_mod, resolve_top_level_names,
    resolve_top_level_contents, resolve_func_contents, resolve_expr, resolve_exprs,
    AstNameResolver.init, ScopedSymbolStack.empty, ScopedSymbolStack.push_scope,
    ScopedSymbolStack.pop_scope, ScopedSymbolStack.insert_func,
    ScopedSymbolStack.insert_local, ScopedSymbolStack.insert_sym,
    ScopedSymbolStack.lookup, lookup_scopes, ScopedSymbolStack.insert_local_reuse,
    ScopedSymbolStack.finish_resolve, record, List.lookup]

/-- Witness for C4 at the concrete name `x`. -/
theorem inner_block_shadowing_witness :
    ∃ t sInner sOuter,
      run_pass (shadow_mod "x") = some (.ok t) ∧
      t.table.lookup 2 = some sOuter ∧
      t.table.lookup 5 = some sInner ∧
      t.table.lookup 7 = some sInner ∧
      sInner ≠ sOuter :=
  inner_block_shadowing "x"

/-- Claim C5: a declaration's value is resolved first, in the enclosing
scope state where the new name is not yet bound: in `decl_sees_outer_mod`
the initializer reference (node 6) of the inner `x = x` binds to the outer
declaration's symbol id (node 2), not to the declaring node's own (node 5);
and in `self_ref_mod` (`x = x` with no outer `x`) the right-hand `x` takes
the unresolved-name path (the walk aborts), never a self-reference. -/
theorem decl_value_resolved_before_binding :
    (∃ t, run_pass decl_sees_outer_mod = some (.ok t) ∧
       t.table.lookup 6 = t.table.lookup 2 ∧
       (t.table.lookup 6).isSome ∧
       t.table.lookup 6 ≠ t.table.lookup 5) ∧
    run_pass self_ref_mod = none :=
  ⟨⟨⟨[(0, 0), (2, 1), (6, 1), (5, 2)], [(0, .func, 0), (1, .loc, 2), (2, .loc, 5)]⟩,
    rfl, rfl, rfl, by decide⟩, rfl⟩

/-- Claim C6: redefinition conflicts are non-fatal: every completed
sub-walk preserves the scope-stack depth and only appends to the error
list, every completed module walk ends with all scopes popped (pushes and
pops balance), and a module with three independent same-scope conflicts
(duplicate top-level `f`, duplicate parameter `a`, duplicate local `y`)
reports all three, not only the first. -/
theorem redefinition_nonfatal_balanced_complete :
    (∀ st e st', resolve_expr st e = some st' →
       st'.scopes.scopes.length = st.scopes.scopes.length ∧
       ∃ l, st'.errs = st.errs ++ l) ∧
    (∀ m st', walk_module m = some st' → st'.scopes.scopes = []) ∧
    run_pass multi_conflict_mod =
      some (.error [.redefinition "f", .redefinition "a", .redefinition "y"]) :=
  ⟨fun st e st' h => resolve_expr_bal st e st' h, walk_module_scopes_nil, rfl⟩

/-- Witness for C6: the balance facts applied at a literal expression and at
the one-function module's completed walk. -/
theorem redefinition_nonfatal_balanced_complete_witness :
    (AstNameResolver.init.scopes.scopes.length =
        AstNameResolver.init.scopes.scopes.length ∧
      ∃ l, AstNameResolver.init.errs = AstNameResolver.init.errs ++ l) ∧
    (AstNameResolver.mk ⟨[], [(0, 0)], [(0, .func, 0)], 1⟩ []).scopes.scopes = [] :=
  ⟨redefinition_nonfatal_balanced_complete.1 AstNameResolver.init (.mk 0 .lit)
      AstNameResolver.init rfl,
   redefinition_nonfatal_balanced_complete.2.1 one_func_mod
      ⟨⟨[], [(0, 0)], [(0, .func, 0)], 1⟩, []⟩ rfl⟩

/-- Claim C7: a let group pushes exactly one scope, resolves the bindings
in declaration order and then the body in that same scope, and pops the
scope (first conjunct, the exact shape of the `Let` arm); a binding may
reference an earlier binding of the group (node 5 binds to node 2's symbol
id, and the body's node 6 to node 4's), while a forward reference to a
later binding is not found by lookup (the walk takes the unresolved path). -/
theorem let_group_sequential_scoping :
    (∀ (st : AstNameResolver) (nid : Nat) (bound : List Expr) (letBody : Expr),
       resolve_expr st (.mk nid (.letE bound letBody)) =
         ((resolve_exprs { st with scopes := st.scopes.push_scope } bound).bind
           fun st1 => resolve_expr st1 letBody).map
             fun st2 => { st2 with scopes := st2.scopes.pop_scope }) ∧
    (∃ t, run_pass let_backward_mod = some (.ok t) ∧
       t.table.lookup 5 = t.table.lookup 2 ∧ (t.table.lookup 5).isSome ∧
       t.table.lookup 6 = t.table.lookup 4 ∧ (t.table.lookup 6).isSome) ∧
    run_pass let_forward_mod = none :=
  ⟨fun _ _ _ _ => rfl,
   ⟨⟨[(0, 0), (2, 1), (5, 1), (4, 2), (6, 2)],
     [(0, .func, 0), (1, .loc, 2), (2, .loc, 4)]⟩, rfl, rfl, rfl, rfl, rfl⟩, rfl⟩

/-- Witness for C7: the let-arm equation applied at an empty binding group. -/
theorem let_group_sequential_scoping_witness :
    resolve_expr AstNameResolver.init (.mk 0 (.letE [] (.mk 1 .lit))) =
      ((resolve_exprs
          { AstNameResolver.init with scopes := AstNameResolver.init.scopes.push_scope }
          []).bind fun st1 => resolve_expr st1 (.mk 1 .lit)).map
        fun st2 => { st2 with scopes := st2.scopes.pop_scope } :=
  let_group_sequential_scoping.1 AstNameResolver.init 0 [] (.mk 1 .lit)

/-- Claim C8: a call resolves all arguments before the callee, with the
arguments in listed order (first two conjuncts, the exact shapes of the
`Call` arm and the list walk); concretely, in `call_mod` the symbol table
is built with the argument references (nodes 5 then 6) appended before the
callee reference (node 4). -/
theorem call_args_resolved_before_callee :
    (∀ (st : AstNameResolver) (nid : Nat) (callee : Expr) (args : List Expr),
       resolve_expr st (.mk nid (.call callee args)) =
         (resolve_exprs st args).bind fun st1 => resolve_expr st1 callee) ∧
    (∀ (st : AstNameResolver) (e : Expr) (rest : List Expr),
       resolve_exprs st (e :: rest) =
         (resolve_expr st e).bind fun st1 => resolve_exprs st1 rest) ∧
    run_pass call_mod =
      some (.ok ⟨[(0, 0), (1, 1), (2, 2), (5, 1), (6, 2), (4, 0)],
                 [(0, .func, 0), (1, .loc, 1), (2, .loc, 2)]⟩) :=
  ⟨fun _ _ _ _ => rfl, fun _ _ _ => rfl, rfl⟩

/-- Witness for C8: the call-arm equation applied at an empty argument list. -/
theorem call_args_resolved_before_callee_witness :
    resolve_expr AstNameResolver.init (.mk 0 (.call (.mk 1 .lit) [])) =
      (resolve_exprs AstNameResolver.init []).bind
        fun st1 => resolve_expr st1 (.mk 1 .lit) :=
  call_args_resolved_before_callee.1 AstNameResolver.init 0 (.mk 1 .lit) []

/-- Claim C9: phase 2 resolves a function's body unconditionally (first
conjunct: `resolve_top_level_contents` invokes `resolve_func_contents` on a
function item regardless of the state, in particular of any phase-1
conflict); concretely, the second `f` of `dup_func_mod` conflicts in phase 1
yet its parameter scope and body are still resolved exactly as for the
non-conflicting `g` of `dup_param_mod`: the duplicate-parameter error is
still detected and the body's `a` still resolves (no abort). -/
theorem conflicting_func_body_still_resolved :
    (∀ (st : AstNameResolver) (nid : Nat) (f : Function) (rest : List Item),
       resolve_top_level_contents st (⟨nid, .func f⟩ :: rest) =
         (resolve_func_contents st f).bind
           fun st1 => resolve_top_level_contents st1 rest) ∧
    run_pass dup_func_mod = some (.error [.redefinition "f", .redefinition "a"]) ∧
    run_pass dup_param_mod = some (.error [.redefinition "a"]) :=
  ⟨fun _ _ _ _ => rfl, rfl, rfl⟩

/-- Witness for C9: the phase-2 equation applied at a one-item list. -/
theorem conflicting_func_body_still_resolved_witness :
    resolve_top_level_contents AstNameResolver.init
        (⟨0, .func ⟨⟨"f", []⟩, .mk 1 .lit⟩⟩ :: []) =
      (resolve_func_contents AstNameResolver.init ⟨⟨"f", []⟩, .mk 1 .lit⟩).bind
        fun st1 => resolve_top_level_contents st1 [] :=
  conflicting_func_body_still_resolved.1 AstNameResolver.init 0 ⟨⟨"f", []⟩, .mk 1 .lit⟩ []

/-- Claim C10: the `If` and `While` arms push and pop no scope of their own
(first two conjuncts: condition, branches and loop body are resolved in the
enclosing state, with no `push_scope`/`pop_scope`); consequently in
`branch_decl_mod` the declarations appearing bare as the if branches and
the while body declare into the enclosing block scope and remain visible
after the if/while: the later references (nodes 12, 13, 14) bind to the
symbol ids of those declarations (nodes 4, 6, 10). -/
theorem if_while_no_own_scope :
    (∀ (st : AstNameResolver) (nid : Nat) (cond ifBody elseBody : Expr),
       resolve_expr st (.mk nid (.ite cond ifBody elseBody)) =
         ((resolve_expr st cond).bind fun st1 => resolve_expr st1 ifBody).bind
           fun st2 => resolve_expr st2 elseBody) ∧
    (∀ (st : AstNameResolver) (nid : Nat) (cond whileBody : Expr),
       resolve_expr st (.mk nid (.whileE cond whileBody)) =
         (resolve_expr st cond).bind fun st1 => resolve_expr st1 whileBody) ∧
    (∃ t, run_pass branch_decl_mod = some (.ok t) ∧
       t.table.lookup 12 = t.table.lookup 4 ∧ (t.table.lookup 12).isSome ∧
       t.table.lookup 13 = t.table.lookup 6 ∧ (t.table.lookup 13).isSome ∧
       t.table.lookup 14 = t.table.lookup 10 ∧ (t.table.lookup 14).isSome) :=
  ⟨fun _ _ _ _ _ => rfl, fun _ _ _ _ => rfl,
   ⟨⟨[(0, 0), (4, 1), (6, 2), (10, 3), (12, 1), (13, 2), (14, 3)],
     [(0, .func, 0), (1, .loc, 4), (2, .loc, 6), (3, .loc, 10)]⟩,
    rfl, rfl, rfl, rfl, rfl, rfl, rfl⟩⟩

/-- Witness for C10: the while-arm equation applied at literal subterms. -/
theorem if_while_no_own_scope_witness :
    resolve_expr AstNameResolver.init (.mk 0 (.whileE (.mk 1 .lit) (.mk 2 .lit))) =
      (resolve_expr AstNameResolver.init (.mk 1 .lit)).bind
        fun st1 => resolve_expr st1 (.mk 2 .lit) :=
  if_while_no_own_scope.2.1 AstNameResolver.init 0 (.mk 1 .lit) (.mk 2 .lit)

end Nosh
